import Mathlib

/-!
Verification of the SYNAPSE demo modules (`login.py`, `board.py`).

The Python classes are embedded as Lean structures with explicit state
passing: a mutating method becomes a function from the old state to the
new state (paired with the return value where the method returns one).
-/

/-- State of `AuthProvider` (`login.py`): a single boolean flag. -/
structure AuthProvider where
  is_authenticated : Bool
deriving DecidableEq, Repr

/-- `AuthProvider.__init__`: starts with `is_authenticated = False`. -/
def AuthProvider.init : AuthProvider := ⟨false⟩

/-- `AuthProvider.login`: on the hardcoded credentials sets the flag and
returns `True`; otherwise returns `False` leaving the state untouched. -/
def AuthProvider.login (s : AuthProvider) (username password : String) :
    AuthProvider × Bool :=
  if username = "admin" ∧ password = "synapse" then
    ({ s with is_authenticated := true }, true)
  else
    (s, false)

/-- `AuthProvider.logout`: unconditionally clears the flag. -/
def AuthProvider.logout (s : AuthProvider) : AuthProvider :=
  { s with is_authenticated := false }

/-- Free function `validate_token` in `login.py`. -/
def validate_token (token : String) : Bool :=
  token = "valid_token"

/-- One call on an `AuthProvider` instance, for trace reasoning. -/
inductive AuthOp where
  | login (username password : String)
  | logout
deriving DecidableEq, Repr

/-- Apply a single `AuthOp` to a state (return value discarded). -/
def AuthProvider.step (s : AuthProvider) : AuthOp → AuthProvider
  | .login u p => (s.login u p).1
  | .logout => s.logout

/-- Run a list of calls from a given state, left to right. -/
def AuthProvider.run (s : AuthProvider) (ops : List AuthOp) : AuthProvider :=
  ops.foldl AuthProvider.step s

/-- State of `CanvasManager` (`board.py`): a size and an ordered list of
elements. Python values are opaque here, so both are type parameters. -/
structure CanvasManager (σ ε : Type) where
  size : σ
  elements : List ε
deriving DecidableEq, Repr

/-- `CanvasManager.__init__(size)`: given size, empty element list. -/
def CanvasManager.init (s : σ) : CanvasManager σ ε := ⟨s, []⟩

/-- `CanvasManager.add_element`: append to the element list. -/
def CanvasManager.add_element (c : CanvasManager σ ε) (e : ε) :
    CanvasManager σ ε :=
  { c with elements := c.elements ++ [e] }

/-- `CanvasManager.clear`: reset the element list to empty. -/
def CanvasManager.clear (c : CanvasManager σ ε) : CanvasManager σ ε :=
  { c with elements := [] }

/-- One call on a `CanvasManager` instance, for trace reasoning. -/
inductive CanvasOp (ε : Type) where
  | add (e : ε)
  | clear
deriving DecidableEq, Repr

/-- Apply a single `CanvasOp` to a canvas state. -/
def CanvasManager.step (c : CanvasManager σ ε) : CanvasOp ε → CanvasManager σ ε
  | .add e => c.add_element e
  | .clear => c.clear

/-- Run a list of calls from a given canvas state, left to right. -/
def CanvasManager.run (c : CanvasManager σ ε) (ops : List (CanvasOp ε)) :
    CanvasManager σ ε :=
  ops.foldl CanvasManager.step c

/-- Values of the configuration mapping returned by `get_board_config`:
the Python dict holds a string and a boolean. -/
inductive ConfigVal where
  | str (s : String)
  | bool (b : Bool)
deriving DecidableEq, Repr

/-- Free function `get_board_config` in `board.py`: a fixed two-entry
mapping, modelled as an association list in the dict's insertion order. -/
def get_board_config : List (String × ConfigVal) :=
  [("theme", ConfigVal.str "gruvbox"), ("grid", ConfigVal.bool true)]

/-- C1: For every `AuthProvider` instance, in every prior state, calling
`login("admin", "synapse")` returns `true` and sets `is_authenticated`
to `true`. -/
theorem login_admin_synapse_succeeds (s : AuthProvider) :
    (s.login "admin" "synapse").2 = true ∧
      (s.login "admin" "synapse").1.is_authenticated = true := by
  simp [AuthProvider.login]

/-- C2 counterexample: from an authenticated prior state, a failed login
(here `login("x", "y")`) leaves `is_authenticated = true`, refuting the
claim that the state is unauthenticated after any failed login. -/
theorem failed_login_from_authenticated_stays_true :
    ((AuthProvider.mk true).login "x" "y").2 = false ∧
      ¬ (((AuthProvider.mk true).login "x" "y").1.is_authenticated = false) := by
  decide

/-- C2 (amended): calling `login` with any pair other than
`("admin", "synapse")` returns `false` and leaves the whole state
unchanged; in particular, it is unauthenticated after the call only when
it already was before. -/
theorem failed_login_returns_false_state_unchanged (s : AuthProvider)
    (u p : String) (h : ¬ (u = "admin" ∧ p = "synapse")) :
    (s.login u p).2 = false ∧ (s.login u p).1 = s := by
  simp [AuthProvider.login, h]

theorem failed_login_returns_false_state_unchanged_witness :
    ¬ ("x" = "admin" ∧ "y" = "synapse") ∧
      (AuthProvider.init.login "x" "y").2 = false ∧
        (AuthProvider.init.login "x" "y").1 = AuthProvider.init :=
  ⟨by decide, failed_login_returns_false_state_unchanged
    AuthProvider.init "x" "y" (by decide)⟩

/-- C3: a failed login returns `false` and leaves `is_authenticated`
unchanged from its value before the call; a fresh instance starts
unauthenticated and remains so after such a call. -/
theorem failed_login_frame (u p : String)
    (h : ¬ (u = "admin" ∧ p = "synapse")) :
    (∀ s : AuthProvider,
        (s.login u p).2 = false ∧
          (s.login u p).1.is_authenticated = s.is_authenticated) ∧
      AuthProvider.init.is_authenticated = false ∧
        (AuthProvider.init.login u p).1.is_authenticated = false := by
  refine ⟨fun s => ?_, rfl, ?_⟩ <;> simp [AuthProvider.login, AuthProvider.init, h]

theorem failed_login_frame_witness :
    ¬ ("guest" = "admin" ∧ "synapse" = "synapse") ∧
      ((∀ s : AuthProvider,
          (s.login "guest" "synapse").2 = false ∧
            (s.login "guest" "synapse").1.is_authenticated =
              s.is_authenticated) ∧
        AuthProvider.init.is_authenticated = false ∧
          (AuthProvider.init.login "guest" "synapse").1.is_authenticated =
            false) :=
  ⟨by decide, failed_login_frame "guest" "synapse" (by decide)⟩

/-- C4: `logout` sets `is_authenticated` to `false` from every prior
state; in particular it does so right after a successful login. -/
theorem logout_clears_flag (s : AuthProvider) :
    s.logout.is_authenticated = false ∧
      ((s.login "admin" "synapse").1.logout).is_authenticated = false := by
  simp [AuthProvider.login, AuthProvider.logout]

/-- C5: `validate_token token = true` exactly when the token is the
literal `"valid_token"`; it is a free function of the token alone, with
no `AuthProvider` state read or written. -/
theorem validate_token_iff (token : String) :
    validate_token token = true ↔ token = "valid_token" := by
  simp [validate_token]

/-- C6: a `CanvasManager` built with any size starts empty; two
`add_element` calls yield `[x, y]` in order; a `clear` afterwards
empties the sequence again. -/
theorem canvas_add_add_clear (sz : σ) (x y : ε) :
    (CanvasManager.init sz : CanvasManager σ ε).elements = [] ∧
      (((CanvasManager.init sz).add_element x).add_element y).elements
        = [x, y] ∧
      ((((CanvasManager.init sz).add_element x).add_element y).clear).elements
        = [] := by
  simp [CanvasManager.init, CanvasManager.add_element, CanvasManager.clear]

/-- C7: `get_board_config` is a constant: every call returns the mapping
`{"theme": "gruvbox", "grid": true}`, independent of any
`CanvasManager` state. -/
theorem get_board_config_constant :
    get_board_config =
      [("theme", ConfigVal.str "gruvbox"), ("grid", ConfigVal.bool true)] :=
  rfl

lemma AuthProvider.run_append (s : AuthProvider) (ops : List AuthOp)
    (op : AuthOp) : s.run (ops ++ [op]) = (s.run ops).step op := by
  simp [AuthProvider.run, List.foldl_append]

lemma CanvasManager.step_size (c : CanvasManager σ ε) (op : CanvasOp ε) :
    (c.step op).size = c.size := by
  cases op <;> rfl

lemma CanvasManager.run_size (c : CanvasManager σ ε)
    (ops : List (CanvasOp ε)) : (c.run ops).size = c.size := by
  induction ops generalizing c with
  | nil => rfl
  | cons op ops ih =>
    show ((c.step op).run ops).size = c.size
    rw [ih, CanvasManager.step_size]

lemma CanvasManager.run_replicate_add_length (c : CanvasManager σ ε) (e : ε)
    (k : Nat) :
    (c.run (List.replicate k (CanvasOp.add e))).elements.length
      = c.elements.length + k := by
  induction k generalizing c with
  | zero => rfl
  | succ k ih =>
    show ((c.step (CanvasOp.add e)).run
        (List.replicate k (CanvasOp.add e))).elements.length
      = c.elements.length + (k + 1)
    rw [ih]
    simp [CanvasManager.step, CanvasManager.add_element]
    omega

lemma auth_run_true_has_login (ops : List AuthOp)
    (h : (AuthProvider.init.run ops).is_authenticated = true) :
    ∃ pre post, ops = pre ++ AuthOp.login "admin" "synapse" :: post ∧
      AuthOp.logout ∉ post := by
  induction ops using List.reverseRecOn with
  | nil => exact absurd h (by decide)
  | append_singleton xs op ih =>
    rw [AuthProvider.run_append] at h
    cases op with
    | logout => exact absurd h (by simp [AuthProvider.step, AuthProvider.logout])
    | login u p =>
      by_cases hc : u = "admin" ∧ p = "synapse"
      · exact ⟨xs, [], by rw [hc.1, hc.2], by simp⟩
      · rw [show (AuthProvider.init.run xs).step (AuthOp.login u p)
              = AuthProvider.init.run xs by
            simp [AuthProvider.step, AuthProvider.login, hc]] at h
        obtain ⟨pre, post, heq, hnl⟩ := ih h
        refine ⟨pre, post ++ [AuthOp.login u p], by simp [heq], ?_⟩
        simp [hnl]

/-- C8: every operation is total and never fails: `login` and
`validate_token` always return a boolean, `add_element` appends its
element for every canvas state with no validation and no capacity check
against `size`, so the element sequence may grow beyond `size` (here a
size-`n` canvas holds `n + 1` elements after `n + 1` appends). -/
theorem ops_total_no_capacity_check :
    (∀ (s : AuthProvider) (u p : String),
        (s.login u p).2 = true ∨ (s.login u p).2 = false) ∧
      (∀ t : String, validate_token t = true ∨ validate_token t = false) ∧
      (∀ (σ ε : Type) (c : CanvasManager σ ε) (e : ε),
          (c.add_element e).elements = c.elements ++ [e]) ∧
      (∀ n : Nat,
          ((CanvasManager.init n : CanvasManager Nat Nat).run
              (List.replicate (n + 1) (CanvasOp.add 0))).elements.length >
            ((CanvasManager.init n : CanvasManager Nat Nat).run
              (List.replicate (n + 1) (CanvasOp.add 0))).size) := by
  refine ⟨fun s u p => Bool.eq_false_or_eq_true _,
    fun t => Bool.eq_false_or_eq_true _,
    fun σ ε c e => rfl, fun n => ?_⟩
  rw [CanvasManager.run_size, CanvasManager.run_replicate_add_length]
  simp [CanvasManager.init]

/-- C9: the `AuthProvider` state machine: a fresh instance is
unauthenticated; the flag turns `true` only by a login call with the
hardcoded credentials; `logout` turns it `false`; a failed login is a
self-loop on the unauthenticated state; and on every trace from the
initial state, `is_authenticated = true` only if some successful login
occurred with no logout after it. -/
theorem auth_state_machine (ops : List AuthOp)
    (h : (AuthProvider.init.run ops).is_authenticated = true) :
    AuthProvider.init.is_authenticated = false ∧
      (∀ (s : AuthProvider) (op : AuthOp), s.is_authenticated = false →
          (s.step op).is_authenticated = true →
            op = AuthOp.login "admin" "synapse") ∧
      (∀ s : AuthProvider, (s.step AuthOp.logout).is_authenticated = false) ∧
      (∀ (s : AuthProvider) (u p : String), s.is_authenticated = false →
          ¬ (u = "admin" ∧ p = "synapse") → s.step (AuthOp.login u p) = s) ∧
      (∃ pre post, ops = pre ++ AuthOp.login "admin" "synapse" :: post ∧
          AuthOp.logout ∉ post) := by
  refine ⟨rfl, fun s op hs hop => ?_, fun s => rfl, fun s u p hs hup => ?_,
    auth_run_true_has_login ops h⟩
  · cases op with
    | logout => exact absurd hop (by simp [AuthProvider.step, AuthProvider.logout])
    | login u p =>
      by_cases hc : u = "admin" ∧ p = "synapse"
      · rw [hc.1, hc.2]
      · rw [show s.step (AuthOp.login u p) = s by
            simp [AuthProvider.step, AuthProvider.login, hc]] at hop
        exact absurd (hs ▸ hop) (by simp)
  · simp [AuthProvider.step, AuthProvider.login, hup]

theorem auth_state_machine_witness :
    (AuthProvider.init.run
        [AuthOp.login "admin" "synapse"]).is_authenticated = true ∧
      (AuthProvider.init.is_authenticated = false ∧
        (∀ (s : AuthProvider) (op : AuthOp), s.is_authenticated = false →
            (s.step op).is_authenticated = true →
              op = AuthOp.login "admin" "synapse") ∧
        (∀ s : AuthProvider, (s.step AuthOp.logout).is_authenticated = false) ∧
        (∀ (s : AuthProvider) (u p : String), s.is_authenticated = false →
            ¬ (u = "admin" ∧ p = "synapse") → s.step (AuthOp.login u p) = s) ∧
        (∃ pre post, [AuthOp.login "admin" "synapse"]
            = pre ++ AuthOp.login "admin" "synapse" :: post ∧
          AuthOp.logout ∉ post)) :=
  ⟨by decide, auth_state_machine [AuthOp.login "admin" "synapse"] (by decide)⟩

/-- C10: `size` is never modified after construction: `add_element` and
`clear` leave it unchanged, and after any sequence of calls on a canvas
built with size `n`, `size` still equals `n`. -/
theorem size_never_modified (σ ε : Type) (c : CanvasManager σ ε) (e : ε)
    (n : σ) (ops : List (CanvasOp ε)) :
    (c.add_element e).size = c.size ∧ c.clear.size = c.size ∧
      ((CanvasManager.init n : CanvasManager σ ε).run ops).size = n :=
  ⟨rfl, rfl, by rw [CanvasManager.run_size]; rfl⟩
